import Mathlib

/-!
Verification development for the TechNeck posture classifier (`src/App.tsx`).

The classifier is the per-frame block of `handleCameraStream` (lines 152-217)
together with the helper functions `findAngle` (lines 468-476) and
`findDistance` (lines 478-481).  JavaScript numbers are modelled as real
numbers; `Math.floor` is `Int.floor`, `Math.sqrt` is `Real.sqrt`,
`Math.acos` is `Real.arccos` and `Math.PI` is `π`.  With real semantics the
junk value that Lean assigns to a division by zero (`0/0 = 0`, so the acos
argument becomes `0` and the floored angle becomes `90`) fails both angle
thresholds (`< 40`, `< 10`), exactly as the IEEE `NaN` produced by the
JavaScript expression fails every `<` comparison, so the classifier below is
observationally faithful to the source even at the degenerate inputs.  A
separate `Option`-valued view `findAngleJS` additionally tracks the `NaN`
outcome itself.
-/

namespace TechNeck

open Real

/-- One keypoint produced by the pose model: a named 2D point with a
confidence score (`{name, x, y, score}`). -/
structure Keypoint where
  name : String
  x : ℝ
  y : ℝ
  score : ℝ

/-- A detected pose: the keypoint list of one person for one frame
(`pose.keypoints` in the source). -/
structure Pose where
  keypoints : List Keypoint

/-- Camera facing, `CameraType.front` / `CameraType.back` from expo-camera. -/
inductive CameraType where
  | front
  | back
  deriving DecidableEq

/-- `const MIN_KEYPOINT_SCORE = 0.3;` (line 34).  In the source this constant
is read only by `renderPose` (line 240), never by the classifier. -/
def MIN_KEYPOINT_SCORE : ℝ := 0.3

/-- `function findDistance(x1, y1, x2, y2)` (lines 478-481):
`Math.floor(Math.sqrt((x2 - x1) ** 2 + (y2 - y1) ** 2))`. -/
noncomputable def findDistance (x1 y1 x2 y2 : ℝ) : ℤ :=
  ⌊Real.sqrt ((x2 - x1) ^ 2 + (y2 - y1) ^ 2)⌋

/-- `function findAngle(x1, y1, x2, y2)` (lines 468-476):
`Math.floor(Math.acos((y2 - y1) * (-y1) / (Math.sqrt((x2 - x1) ** 2 + (y2 - y1) ** 2) * y1)) * (180 / Math.PI))`. -/
noncomputable def findAngle (x1 y1 x2 y2 : ℝ) : ℤ :=
  ⌊Real.arccos ((y2 - y1) * (-y1) /
      (Real.sqrt ((x2 - x1) ^ 2 + (y2 - y1) ^ 2) * y1)) * (180 / π)⌋

/-- `keypoints.find((kp) => kp.name === n)` — first keypoint with the given
name, if any. -/
def findKeypoint (keypoints : List Keypoint) (n : String) : Option Keypoint :=
  keypoints.find? (fun kp => kp.name == n)

/-- The two state cells the classifier writes: `aligned` (from
`useState(false)`, line 56) and `color` (from `useState('green')`, line 62). -/
structure PostureState where
  aligned : Bool
  color : String
  deriving DecidableEq

/-- Lines 155-165: if both shoulders are found, set `aligned` according to
the floored shoulder distance being `< 100`; otherwise leave the state
alone.  Note that this block writes the same `aligned` cell as the two
camera branches below and never calls `setColor`. -/
noncomputable def shoulderStep (keypoints : List Keypoint)
    (st : PostureState) : PostureState :=
  match findKeypoint keypoints "left_shoulder",
      findKeypoint keypoints "right_shoulder" with
  | some leftShoulder, some rightShoulder =>
      if findDistance leftShoulder.x leftShoulder.y
          rightShoulder.x rightShoulder.y < 100 then
        { st with aligned := true }
      else
        { st with aligned := false }
  | _, _ => st

/-- Lines 176-191: the front-camera ear/nose branch.  When the camera is
front and `left_ear`, `right_ear`, `nose` are all found, classify by the
floored distance from the ear midpoint to the nose (`< 10`); otherwise the
branch is skipped and the state passes through unchanged. -/
noncomputable def frontStep (cameraType : CameraType)
    (keypoints : List Keypoint) (st : PostureState) : PostureState :=
  match cameraType, findKeypoint keypoints "left_ear",
      findKeypoint keypoints "right_ear", findKeypoint keypoints "nose" with
  | CameraType.front, some leftEar, some rightEar, some nose =>
      let dist := findDistance ((leftEar.x + rightEar.x) / 2)
        ((leftEar.y + rightEar.y) / 2) nose.x nose.y
      if dist < 10 then { aligned := true, color := "green" }
      else { aligned := false, color := "red" }
  | _, _, _, _ => st

/-- Lines 193-216: the back-camera branch.  When the camera is back and all
six of `left_shoulder`, `right_shoulder`, `left_ear`, `right_ear`,
`left_hip`, `right_hip` are found, the source computes
`neckAngle = findAngle(leftShoulder, leftEar)` and
`torsoAngle = findAngle(leftHip, leftShoulder)` and classifies by
`neckAngle < 40 && torsoAngle < 10`; otherwise the branch is skipped.  The
three right-side keypoints are only tested for presence, never read. -/
noncomputable def backStep (cameraType : CameraType)
    (keypoints : List Keypoint) (st : PostureState) : PostureState :=
  match cameraType, findKeypoint keypoints "left_shoulder",
      findKeypoint keypoints "right_shoulder",
      findKeypoint keypoints "left_ear", findKeypoint keypoints "right_ear",
      findKeypoint keypoints "left_hip", findKeypoint keypoints "right_hip" with
  | CameraType.back, some leftShoulder, some _, some leftEar, some _,
      some leftHip, some _ =>
      let neckAngle := findAngle leftShoulder.x leftShoulder.y
        leftEar.x leftEar.y
      let torsoAngle := findAngle leftHip.x leftHip.y
        leftShoulder.x leftShoulder.y
      if neckAngle < 40 ∧ torsoAngle < 10 then
        { aligned := true, color := "green" }
      else { aligned := false, color := "red" }
  | _, _, _, _, _, _, _ => st

/-- The whole classifier body for one detected pose (lines 152-217): the
shoulder block runs first, then the front-camera branch, then the
back-camera branch, each reading/writing the shared state cells. -/
noncomputable def classify (cameraType : CameraType)
    (keypoints : List Keypoint) (st : PostureState) : PostureState :=
  backStep cameraType keypoints
    (frontStep cameraType keypoints (shoulderStep keypoints st))

/-- Initial component state: `useState(false)` for `aligned` (line 56) and
`useState('green')` for `color` (line 62). -/
def initState : PostureState := { aligned := false, color := "green" }

/-- One frame of the loop (lines 152-217): if at least one pose was
detected, run the classifier on `poses[0].keypoints`, otherwise the state is
untouched. -/
noncomputable def processFrame (cameraType : CameraType) (poses : List Pose)
    (st : PostureState) : PostureState :=
  match poses with
  | [] => st
  | pose :: _ => classify cameraType pose.keypoints st

/-- Run the frame loop from the initial state over a list of frames, each
frame being the active camera facing together with the detected poses. -/
noncomputable def runFrames (frames : List (CameraType × List Pose)) :
    PostureState :=
  frames.foldl (fun st frame => processFrame frame.1 frame.2 st) initState

/-- Radians-to-degrees conversion used by the spec's angle formula. -/
noncomputable def degrees (radians : ℝ) : ℝ := radians * (180 / π)

/-- The angle formula exactly as the specification words it:
`floor( degrees( acos( (y2−y1) · (−y1) / ( sqrt((x2−x1)^2 + (y2−y1)^2) · y1 ) ) ) )`.
Stated from the spec so that it can be compared with the source's
`findAngle`. -/
noncomputable def findAngleSpec (x1 y1 x2 y2 : ℝ) : ℤ :=
  ⌊degrees (Real.arccos ((y2 - y1) * (-y1) /
      (Real.sqrt ((x2 - x1) ^ 2 + (y2 - y1) ^ 2) * y1)))⌋

/-- IEEE view of the same source expression: `none` models the `NaN`
result.  For finite inputs the acos argument of `findAngle` is `NaN` exactly
when its divisor `sqrt((x2-x1)^2+(y2-y1)^2) * y1` is zero (the numerator
`(y2-y1)*(-y1)` is then zero as well, giving `0/0`; see
`findAngle_divisor_zero_numerator_zero`), and otherwise the argument lies in
`[-1, 1]` (see `findAngle_arg_mem_Icc`) so `Math.acos` is finite.  `NaN`
then propagates through `* (180 / Math.PI)` and `Math.floor`. -/
noncomputable def findAngleJS (x1 y1 x2 y2 : ℝ) : Option ℤ :=
  if Real.sqrt ((x2 - x1) ^ 2 + (y2 - y1) ^ 2) * y1 = 0 then none
  else some (findAngle x1 y1 x2 y2)

/-! ### Supporting lemmas for the embedding -/

/-- When the divisor of the acos argument vanishes, so does the numerator:
the JavaScript division is `0/0`, which is `NaN`. -/
theorem findAngle_divisor_zero_numerator_zero (x1 y1 x2 y2 : ℝ)
    (h : Real.sqrt ((x2 - x1) ^ 2 + (y2 - y1) ^ 2) * y1 = 0) :
    (y2 - y1) * (-y1) = 0 := by
  rcases mul_eq_zero.mp h with hs | hy
  · have hsum : (x2 - x1) ^ 2 + (y2 - y1) ^ 2 = 0 := by
      have h0 : (0 : ℝ) ≤ (x2 - x1) ^ 2 + (y2 - y1) ^ 2 := by positivity
      exact (Real.sqrt_eq_zero h0).mp hs
    have hy2 : (y2 - y1) ^ 2 = 0 := by nlinarith [sq_nonneg (x2 - x1)]
    have : y2 - y1 = 0 := pow_eq_zero_iff (n := 2) (by norm_num) |>.mp hy2
    rw [this, zero_mul]
  · rw [hy, neg_zero, mul_zero]

/-- When the divisor does not vanish, the acos argument is a genuine cosine
value: it lies in `[-1, 1]`, so `Math.acos` does not produce `NaN`. -/
theorem findAngle_arg_mem_Icc (x1 y1 x2 y2 : ℝ)
    (h : Real.sqrt ((x2 - x1) ^ 2 + (y2 - y1) ^ 2) * y1 ≠ 0) :
    (y2 - y1) * (-y1) /
      (Real.sqrt ((x2 - x1) ^ 2 + (y2 - y1) ^ 2) * y1) ∈
        Set.Icc (-1 : ℝ) 1 := by
  set s := Real.sqrt ((x2 - x1) ^ 2 + (y2 - y1) ^ 2) with hs
  have hs0 : 0 ≤ s := Real.sqrt_nonneg _
  have habs : |y2 - y1| ≤ s := by
    rw [hs]
    calc |y2 - y1| = Real.sqrt ((y2 - y1) ^ 2) := (Real.sqrt_sq_eq_abs _).symm
    _ ≤ Real.sqrt ((x2 - x1) ^ 2 + (y2 - y1) ^ 2) :=
        Real.sqrt_le_sqrt (by nlinarith [sq_nonneg (x2 - x1)])
  have hdiv : |(y2 - y1) * (-y1) / (s * y1)| ≤ 1 := by
    rw [abs_div, abs_mul, abs_mul, abs_neg]
    have hsy : 0 < |s| * |y1| := by
      have := abs_pos.mpr h
      rwa [abs_mul] at this
    rw [div_le_one hsy]
    have : |s| = s := abs_of_nonneg hs0
    rw [this]
    have hy1 : 0 ≤ |y1| := abs_nonneg _
    exact mul_le_mul_of_nonneg_right habs hy1
  exact ⟨neg_le_of_abs_le hdiv, le_of_abs_le hdiv⟩

/-! ### Reduction lemmas for the classifier steps -/

/-- Reduction of the shoulder block when both shoulders are found. -/
theorem shoulderStep_some (kps : List Keypoint) (st : PostureState)
    (ls rs : Keypoint)
    (hls : findKeypoint kps "left_shoulder" = some ls)
    (hrs : findKeypoint kps "right_shoulder" = some rs) :
    shoulderStep kps st =
      if findDistance ls.x ls.y rs.x rs.y < 100 then
        { st with aligned := true }
      else { st with aligned := false } := by
  unfold shoulderStep
  rw [hls, hrs]

/-- The shoulder block is skipped when a shoulder keypoint is missing. -/
theorem shoulderStep_skip (kps : List Keypoint) (st : PostureState)
    (h : findKeypoint kps "left_shoulder" = none ∨
      findKeypoint kps "right_shoulder" = none) :
    shoulderStep kps st = st := by
  unfold shoulderStep
  rcases h with h | h
  · rw [h]
  · cases hls : findKeypoint kps "left_shoulder" with
    | none => rfl
    | some ls => rw [h]

/-- The front-camera branch does nothing when the camera faces back. -/
theorem frontStep_back (kps : List Keypoint) (st : PostureState) :
    frontStep CameraType.back kps st = st := rfl

/-- Reduction of the front-camera branch when the camera is front and all
three required keypoints are found. -/
theorem frontStep_front_some (kps : List Keypoint) (st : PostureState)
    (le re n : Keypoint)
    (hle : findKeypoint kps "left_ear" = some le)
    (hre : findKeypoint kps "right_ear" = some re)
    (hn : findKeypoint kps "nose" = some n) :
    frontStep CameraType.front kps st =
      if findDistance ((le.x + re.x) / 2) ((le.y + re.y) / 2) n.x n.y < 10
      then { aligned := true, color := "green" }
      else { aligned := false, color := "red" } := by
  unfold frontStep
  rw [hle, hre, hn]

/-- The front-camera branch is skipped whenever one of `left_ear`,
`right_ear`, `nose` is missing, for either camera facing. -/
theorem frontStep_skip (cameraType : CameraType) (kps : List Keypoint)
    (st : PostureState)
    (h : findKeypoint kps "left_ear" = none ∨
      findKeypoint kps "right_ear" = none ∨
      findKeypoint kps "nose" = none) :
    frontStep cameraType kps st = st := by
  cases cameraType with
  | back => rfl
  | front =>
    unfold frontStep
    rcases h with h | h | h
    · rw [h]
    · cases hle : findKeypoint kps "left_ear" with
      | none => rfl
      | some le => rw [h]
    · cases hle : findKeypoint kps "left_ear" with
      | none => rfl
      | some le =>
        cases hre : findKeypoint kps "right_ear" with
        | none => rfl
        | some re => rw [h]

/-- The back-camera branch does nothing when the camera faces front. -/
theorem backStep_front (kps : List Keypoint) (st : PostureState) :
    backStep CameraType.front kps st = st := rfl

/-- Reduction of the back-camera branch when the camera is back and all six
required keypoints are found. -/
theorem backStep_back_some (kps : List Keypoint) (st : PostureState)
    (ls rs le re lh rh : Keypoint)
    (hls : findKeypoint kps "left_shoulder" = some ls)
    (hrs : findKeypoint kps "right_shoulder" = some rs)
    (hle : findKeypoint kps "left_ear" = some le)
    (hre : findKeypoint kps "right_ear" = some re)
    (hlh : findKeypoint kps "left_hip" = some lh)
    (hrh : findKeypoint kps "right_hip" = some rh) :
    backStep CameraType.back kps st =
      if findAngle ls.x ls.y le.x le.y < 40 ∧
          findAngle lh.x lh.y ls.x ls.y < 10 then
        { aligned := true, color := "green" }
      else { aligned := false, color := "red" } := by
  unfold backStep
  rw [hls, hrs, hle, hre, hlh, hrh]

/-- The shoulder block never writes the color cell. -/
theorem shoulderStep_color (kps : List Keypoint) (st : PostureState) :
    (shoulderStep kps st).color = st.color := by
  unfold shoulderStep
  cases findKeypoint kps "left_shoulder" with
  | none => rfl
  | some ls =>
    cases findKeypoint kps "right_shoulder" with
    | none => rfl
    | some rs =>
      dsimp only
      split <;> rfl

/-- Each run of the front-camera branch either keeps the color or writes
"green" or "red". -/
theorem frontStep_color (cameraType : CameraType) (kps : List Keypoint)
    (st : PostureState) :
    (frontStep cameraType kps st).color = st.color ∨
      (frontStep cameraType kps st).color = "green" ∨
      (frontStep cameraType kps st).color = "red" := by
  cases cameraType with
  | back => exact Or.inl rfl
  | front =>
    unfold frontStep
    cases findKeypoint kps "left_ear" with
    | none => exact Or.inl rfl
    | some le =>
      cases findKeypoint kps "right_ear" with
      | none => exact Or.inl rfl
      | some re =>
        cases findKeypoint kps "nose" with
        | none => exact Or.inl rfl
        | some n =>
          dsimp only
          split
          · exact Or.inr (Or.inl rfl)
          · exact Or.inr (Or.inr rfl)

/-- Each run of the back-camera branch either keeps the color or writes
"green" or "red". -/
theorem backStep_color (cameraType : CameraType) (kps : List Keypoint)
    (st : PostureState) :
    (backStep cameraType kps st).color = st.color ∨
      (backStep cameraType kps st).color = "green" ∨
      (backStep cameraType kps st).color = "red" := by
  cases cameraType with
  | front => exact Or.inl rfl
  | back =>
    unfold backStep
    cases findKeypoint kps "left_shoulder" with
    | none => exact Or.inl rfl
    | some ls =>
      cases findKeypoint kps "right_shoulder" with
      | none => exact Or.inl rfl
      | some rs =>
        cases findKeypoint kps "left_ear" with
        | none => exact Or.inl rfl
        | some le =>
          cases findKeypoint kps "right_ear" with
          | none => exact Or.inl rfl
          | some re =>
            cases findKeypoint kps "left_hip" with
            | none => exact Or.inl rfl
            | some lh =>
              cases findKeypoint kps "right_hip" with
              | none => exact Or.inl rfl
              | some rh =>
                dsimp only
                split
                · exact Or.inr (Or.inl rfl)
                · exact Or.inr (Or.inr rfl)

/-- One classifier run either keeps the color or writes "green" or "red". -/
theorem classify_color (cameraType : CameraType) (kps : List Keypoint)
    (st : PostureState) :
    (classify cameraType kps st).color = st.color ∨
      (classify cameraType kps st).color = "green" ∨
      (classify cameraType kps st).color = "red" := by
  unfold classify
  rcases backStep_color cameraType kps
      (frontStep cameraType kps (shoulderStep kps st)) with h3 | h3 | h3
  · rw [h3]
    rcases frontStep_color cameraType kps (shoulderStep kps st) with
      h2 | h2 | h2
    · rw [h2, shoulderStep_color]
      exact Or.inl rfl
    · exact Or.inr (Or.inl h2)
    · exact Or.inr (Or.inr h2)
  · exact Or.inr (Or.inl h3)
  · exact Or.inr (Or.inr h3)

/-- One frame either keeps the color or writes "green" or "red". -/
theorem processFrame_color (cameraType : CameraType) (poses : List Pose)
    (st : PostureState) :
    (processFrame cameraType poses st).color = st.color ∨
      (processFrame cameraType poses st).color = "green" ∨
      (processFrame cameraType poses st).color = "red" := by
  cases poses with
  | nil => exact Or.inl rfl
  | cons p ps => exact classify_color cameraType p.keypoints st

/-! ### Evaluation lemmas for the arithmetic helpers -/

/-- Evaluate `findDistance` when the squared distance is a perfect square. -/
theorem findDistance_eval (x1 y1 x2 y2 d : ℝ) (hd : 0 ≤ d)
    (h : (x2 - x1) ^ 2 + (y2 - y1) ^ 2 = d ^ 2) :
    findDistance x1 y1 x2 y2 = ⌊d⌋ := by
  unfold findDistance
  rw [h, Real.sqrt_sq hd]

/-- `findAngle` of a point straight above the reference point (positive
`y1`): the acos argument is `1`, so the floored angle is `0` degrees. -/
theorem findAngle_vertical_up (x y d : ℝ) (hy : 0 < y) (hd : 0 < d) :
    findAngle x y x (y - d) = 0 := by
  unfold findAngle
  rw [show x - x = (0 : ℝ) from sub_self x, show y - d - y = -d by ring,
    show (0 : ℝ) ^ 2 + (-d) ^ 2 = d ^ 2 by ring, Real.sqrt_sq hd.le,
    show -d * -y = d * y by ring, div_self (by positivity : d * y ≠ 0),
    Real.arccos_one, zero_mul, Int.floor_zero]

/-- `findAngle` of a point straight below the reference point (positive
`y1`): the acos argument is `-1`, so the floored angle is `180` degrees. -/
theorem findAngle_vertical_down (x y d : ℝ) (hy : 0 < y) (hd : 0 < d) :
    findAngle x y x (y + d) = 180 := by
  unfold findAngle
  rw [show x - x = (0 : ℝ) from sub_self x, show y + d - y = d by ring,
    show (0 : ℝ) ^ 2 + d ^ 2 = d ^ 2 by ring, Real.sqrt_sq hd.le,
    show d * -y = -(d * y) by ring, neg_div,
    div_self (by positivity : d * y ≠ 0), Real.arccos_neg_one,
    show π * (180 / π) = 180 by
      rw [mul_comm, div_mul_cancel₀ _ Real.pi_ne_zero]]
  norm_num

/-- `findAngle` from `(0, 1)` to the point at angle `π/5` on the unit
circle below it: the acos argument is exactly `cos (π/5)`, so the floored
angle is `36` degrees. -/
theorem findAngle_pi_fifth :
    findAngle 0 1 (Real.sin (π / 5)) (1 - Real.cos (π / 5)) = 36 := by
  unfold findAngle
  rw [show 1 - Real.cos (π / 5) - 1 = -Real.cos (π / 5) by ring, sub_zero,
    show Real.sin (π / 5) ^ 2 + (-Real.cos (π / 5)) ^ 2 = 1 by
      rw [neg_sq]; exact Real.sin_sq_add_cos_sq _,
    Real.sqrt_one, mul_one,
    show -Real.cos (π / 5) * -(1 : ℝ) = Real.cos (π / 5) by ring, div_one,
    Real.arccos_cos (by positivity) (by linarith [Real.pi_pos]),
    show π / 5 * (180 / π) = 36 by
      have hπ : π ≠ 0 := Real.pi_ne_zero
      field_simp
      ring]
  norm_num

/-! ### Score irrelevance lemmas -/

/-- Finding a keypoint by name commutes with rewriting every score: the
search predicate reads only the name. -/
theorem findKeypoint_map_score (kps : List Keypoint) (n : String)
    (f : Keypoint → ℝ) :
    findKeypoint (kps.map (fun kp => { kp with score := f kp })) n =
      Option.map (fun kp => { kp with score := f kp })
        (findKeypoint kps n) := by
  unfold findKeypoint
  rw [List.find?_map]
  rfl

/-- The shoulder block is invariant under arbitrary rewriting of the
confidence scores. -/
theorem shoulderStep_map_score (kps : List Keypoint) (st : PostureState)
    (f : Keypoint → ℝ) :
    shoulderStep (kps.map (fun kp => { kp with score := f kp })) st =
      shoulderStep kps st := by
  unfold shoulderStep
  rw [findKeypoint_map_score, findKeypoint_map_score]
  cases findKeypoint kps "left_shoulder" with
  | none => rfl
  | some ls =>
    cases findKeypoint kps "right_shoulder" with
    | none => rfl
    | some rs => rfl

/-- The front-camera branch is invariant under arbitrary rewriting of the
confidence scores. -/
theorem frontStep_map_score (cameraType : CameraType) (kps : List Keypoint)
    (st : PostureState) (f : Keypoint → ℝ) :
    frontStep cameraType (kps.map (fun kp => { kp with score := f kp })) st =
      frontStep cameraType kps st := by
  cases cameraType with
  | back => rfl
  | front =>
    unfold frontStep
    rw [findKeypoint_map_score, findKeypoint_map_score,
      findKeypoint_map_score]
    cases findKeypoint kps "left_ear" with
    | none => rfl
    | some le =>
      cases findKeypoint kps "right_ear" with
      | none => rfl
      | some re =>
        cases findKeypoint kps "nose" with
        | none => rfl
        | some n => rfl

/-- The back-camera branch is invariant under arbitrary rewriting of the
confidence scores. -/
theorem backStep_map_score (cameraType : CameraType) (kps : List Keypoint)
    (st : PostureState) (f : Keypoint → ℝ) :
    backStep cameraType (kps.map (fun kp => { kp with score := f kp })) st =
      backStep cameraType kps st := by
  cases cameraType with
  | front => rfl
  | back =>
    unfold backStep
    rw [findKeypoint_map_score, findKeypoint_map_score,
      findKeypoint_map_score, findKeypoint_map_score,
      findKeypoint_map_score, findKeypoint_map_score]
    cases findKeypoint kps "left_shoulder" with
    | none => rfl
    | some ls =>
      cases findKeypoint kps "right_shoulder" with
      | none => rfl
      | some rs =>
        cases findKeypoint kps "left_ear" with
        | none => rfl
        | some le =>
          cases findKeypoint kps "right_ear" with
          | none => rfl
          | some re =>
            cases findKeypoint kps "left_hip" with
            | none => rfl
            | some lh =>
              cases findKeypoint kps "right_hip" with
              | none => rfl
              | some rh => rfl

/-! ### Concrete poses used by the witnesses and counterexamples -/

/-- The spec's front-camera example: ears at `(0,0)` and `(10,0)`, nose at
`(5,3)`. -/
noncomputable def frontExample : List Keypoint :=
  [{ name := "left_ear", x := 0, y := 0, score := 1 },
   { name := "right_ear", x := 10, y := 0, score := 1 },
   { name := "nose", x := 5, y := 3, score := 1 }]

/-- A back-camera pose whose two angles are both `0`: left ear straight
above the left shoulder, left shoulder straight above the left hip. -/
noncomputable def backAlignedExample : List Keypoint :=
  [{ name := "left_shoulder", x := 0, y := 1, score := 1 },
   { name := "right_shoulder", x := 3, y := 1, score := 1 },
   { name := "left_ear", x := 0, y := 0, score := 1 },
   { name := "right_ear", x := 3, y := 0, score := 1 },
   { name := "left_hip", x := 0, y := 2, score := 1 },
   { name := "right_hip", x := 3, y := 2, score := 1 }]

/-- A back-camera pose whose shoulder-to-ear angle is exactly `36` degrees
(the ear sits at angle `π/5` on the unit circle around the shoulder) while
the hip-to-shoulder angle is `0`. -/
noncomputable def backExample : List Keypoint :=
  [{ name := "left_shoulder", x := 0, y := 1, score := 1 },
   { name := "right_shoulder", x := 3, y := 1, score := 1 },
   { name := "left_ear", x := Real.sin (π / 5),
     y := 1 - Real.cos (π / 5), score := 1 },
   { name := "right_ear", x := 3, y := 0, score := 1 },
   { name := "left_hip", x := 0, y := 2, score := 1 },
   { name := "right_hip", x := 3, y := 2, score := 1 }]

/-- Front-camera keypoints that are all present but all below the `0.3`
score threshold, positioned so that the ear-midpoint-to-nose distance is
`20`. -/
noncomputable def lowScoreExample : List Keypoint :=
  [{ name := "left_ear", x := 0, y := 0, score := 0.1 },
   { name := "right_ear", x := 10, y := 0, score := 0.1 },
   { name := "nose", x := 5, y := 20, score := 0.1 }]

/-- A pose containing only the two shoulders, `150` apart. -/
noncomputable def shouldersOnlyExample : List Keypoint :=
  [{ name := "left_shoulder", x := 0, y := 0, score := 1 },
   { name := "right_shoulder", x := 150, y := 0, score := 1 }]

/-- Shoulders `50` apart (the spec's aligned shoulder example). -/
noncomputable def nearShouldersExample : List Keypoint :=
  [{ name := "left_shoulder", x := 0, y := 0, score := 1 },
   { name := "right_shoulder", x := 50, y := 0, score := 1 }]

/-- Shoulders `150` apart (the spec's not-aligned shoulder example). -/
noncomputable def farShouldersExample : List Keypoint :=
  [{ name := "left_shoulder", x := 0, y := 0, score := 1 },
   { name := "right_shoulder", x := 150, y := 0, score := 1 }]

/-! ### Claims -/

/-- C1: Front-camera classification: for every pose in which `left_ear`,
`right_ear` and `nose` are all present and the camera type is front, the
classifier computes the midpoint of the two ears, takes the floored
Euclidean distance from that midpoint to the nose, and if that distance is
`< 10` sets the verdict to aligned and the color to "green", otherwise sets
the verdict to not aligned and the color to "red". -/
theorem front_camera_classification (kps : List Keypoint)
    (st : PostureState) (le re n : Keypoint)
    (hle : findKeypoint kps "left_ear" = some le)
    (hre : findKeypoint kps "right_ear" = some re)
    (hn : findKeypoint kps "nose" = some n) :
    classify CameraType.front kps st =
      if findDistance ((le.x + re.x) / 2) ((le.y + re.y) / 2) n.x n.y < 10
      then { aligned := true, color := "green" }
      else { aligned := false, color := "red" } := by
  unfold classify
  rw [backStep_front, frontStep_front_some kps _ le re n hle hre hn]

/-- C1 witness: `left_ear=(0,0)`, `right_ear=(10,0)`, `nose=(5,3)` gives
distance `3` and the aligned/green outcome. -/
theorem front_camera_classification_witness :
    findKeypoint frontExample "left_ear" =
      some { name := "left_ear", x := 0, y := 0, score := 1 } ∧
    findKeypoint frontExample "right_ear" =
      some { name := "right_ear", x := 10, y := 0, score := 1 } ∧
    findKeypoint frontExample "nose" =
      some { name := "nose", x := 5, y := 3, score := 1 } ∧
    classify CameraType.front frontExample
        { aligned := false, color := "red" } =
      { aligned := true, color := "green" } := by
  refine ⟨rfl, rfl, rfl, ?_⟩
  rw [front_camera_classification frontExample _ _ _ _ rfl rfl rfl]
  have hd := findDistance_eval (5 : ℝ) 0 5 3 3 (by norm_num) (by norm_num)
  norm_num at hd
  dsimp only
  norm_num [hd]

/-- C2 counterexample: the claim pairs the names the wrong way around.  On
`backExample` the source computes `neckAngle = findAngle(shoulder→ear) = 36`
and `torsoAngle = findAngle(hip→shoulder) = 0`, so `36 < 40 ∧ 0 < 10` holds
and the classifier outputs aligned/green; the claim's condition — angle of
`(left_hip→left_shoulder)` below `40` AND angle of `(left_shoulder→left_ear)`
below `10` — is false at the same input (`0 < 40` but `¬(36 < 10)`), so the
claimed "exactly when" equivalence fails. -/
theorem back_camera_pairing_counterexample :
    classify CameraType.back backExample
        { aligned := false, color := "red" } =
      { aligned := true, color := "green" } ∧
    ¬(findAngle 0 2 0 1 < 40 ∧
      findAngle 0 1 (Real.sin (π / 5)) (1 - Real.cos (π / 5)) < 10) := by
  have htorso : findAngle (0 : ℝ) 2 0 1 = 0 := by
    have h := findAngle_vertical_up 0 2 1 (by norm_num) one_pos
    norm_num at h
    exact h
  constructor
  · unfold classify
    rw [frontStep_back, backStep_back_some backExample _
        { name := "left_shoulder", x := 0, y := 1, score := 1 }
        { name := "right_shoulder", x := 3, y := 1, score := 1 }
        { name := "left_ear", x := Real.sin (π / 5),
          y := 1 - Real.cos (π / 5), score := 1 }
        { name := "right_ear", x := 3, y := 0, score := 1 }
        { name := "left_hip", x := 0, y := 2, score := 1 }
        { name := "right_hip", x := 3, y := 2, score := 1 }
        rfl rfl rfl rfl rfl rfl]
    dsimp only
    rw [findAngle_pi_fifth, htorso]
    norm_num
  · rw [findAngle_pi_fifth, htorso]
    norm_num

/-- C2 amended: for every pose in which all six back-branch keypoints are
present and the camera type is back, the classifier computes the neck angle
from the point pair `(left_shoulder→left_ear)` and the torso angle from
`(left_hip→left_shoulder)` with the fixed angle formula, and sets
aligned/green exactly when the neck angle is `< 40` and the torso angle is
`< 10`, not-aligned/red otherwise. -/
theorem back_camera_classification (kps : List Keypoint)
    (st : PostureState) (ls rs le re lh rh : Keypoint)
    (hls : findKeypoint kps "left_shoulder" = some ls)
    (hrs : findKeypoint kps "right_shoulder" = some rs)
    (hle : findKeypoint kps "left_ear" = some le)
    (hre : findKeypoint kps "right_ear" = some re)
    (hlh : findKeypoint kps "left_hip" = some lh)
    (hrh : findKeypoint kps "right_hip" = some rh) :
    classify CameraType.back kps st =
      if findAngle ls.x ls.y le.x le.y < 40 ∧
          findAngle lh.x lh.y ls.x ls.y < 10
      then { aligned := true, color := "green" }
      else { aligned := false, color := "red" } := by
  unfold classify
  rw [frontStep_back, backStep_back_some kps _ ls rs le re lh rh
    hls hrs hle hre hlh hrh]

/-- C2 amended witness: on `backAlignedExample` both angles are `0`, so the
back branch outputs aligned/green. -/
theorem back_camera_classification_witness :
    findKeypoint backAlignedExample "left_shoulder" =
      some { name := "left_shoulder", x := 0, y := 1, score := 1 } ∧
    findKeypoint backAlignedExample "left_hip" =
      some { name := "left_hip", x := 0, y := 2, score := 1 } ∧
    classify CameraType.back backAlignedExample
        { aligned := false, color := "red" } =
      { aligned := true, color := "green" } := by
  refine ⟨rfl, rfl, ?_⟩
  rw [back_camera_classification backAlignedExample _ _ _ _ _ _ _
    rfl rfl rfl rfl rfl rfl]
  have hneck : findAngle (0 : ℝ) 1 0 0 = 0 := by
    have h := findAngle_vertical_up 0 1 1 one_pos one_pos
    norm_num at h
    exact h
  have htorso : findAngle (0 : ℝ) 2 0 1 = 0 := by
    have h := findAngle_vertical_up 0 2 1 (by norm_num) one_pos
    norm_num at h
    exact h
  dsimp only
  rw [hneck, htorso]
  norm_num

/-- C3 counterexample: the classifier does not gate on confidence.  On
`lowScoreExample` every keypoint scores `0.1 < 0.3`, yet the front branch
still updates the previous aligned/green state to not-aligned/red. -/
theorem low_score_keypoints_update_verdict :
    findKeypoint lowScoreExample "left_ear" =
      some { name := "left_ear", x := 0, y := 0, score := 0.1 } ∧
    (0.1 : ℝ) < MIN_KEYPOINT_SCORE ∧
    classify CameraType.front lowScoreExample
        { aligned := true, color := "green" } =
      { aligned := false, color := "red" } ∧
    ({ aligned := false, color := "red" } : PostureState) ≠
      { aligned := true, color := "green" } := by
  refine ⟨rfl, by norm_num [MIN_KEYPOINT_SCORE], ?_, by decide⟩
  unfold classify
  rw [backStep_front, frontStep_front_some lowScoreExample _
      { name := "left_ear", x := 0, y := 0, score := 0.1 }
      { name := "right_ear", x := 10, y := 0, score := 0.1 }
      { name := "nose", x := 5, y := 20, score := 0.1 } rfl rfl rfl]
  have hd := findDistance_eval (5 : ℝ) 0 5 20 20 (by norm_num) (by norm_num)
  norm_num at hd
  dsimp only
  norm_num [hd]

/-- C3 amended: the classifier never reads the confidence scores: its
output is invariant under arbitrary rewriting of every keypoint's score, so
a required keypoint that is present is used even when its score is below
the `0.3` threshold (which the source applies only when rendering). -/
theorem classify_score_invariant (cameraType : CameraType)
    (kps : List Keypoint) (st : PostureState) (f : Keypoint → ℝ) :
    classify cameraType (kps.map (fun kp => { kp with score := f kp })) st =
      classify cameraType kps st := by
  unfold classify
  rw [shoulderStep_map_score, frontStep_map_score, backStep_map_score]

/-- C4 counterexample: the shoulder-distance check and the branch verdict
share one state cell.  On a shoulders-only front-camera frame (no ear, nose
or hip keypoints, so neither camera branch can run) the shoulder-distance
check alone flips the previously stored verdict boolean from `true` to
`false`, which the claimed independence forbids; the color is untouched. -/
theorem shoulder_update_changes_verdict_cell :
    findKeypoint shouldersOnlyExample "left_ear" = none ∧
    findKeypoint shouldersOnlyExample "right_ear" = none ∧
    findKeypoint shouldersOnlyExample "nose" = none ∧
    findKeypoint shouldersOnlyExample "left_hip" = none ∧
    classify CameraType.front shouldersOnlyExample
        { aligned := true, color := "green" } =
      { aligned := false, color := "green" } := by
  refine ⟨rfl, rfl, rfl, rfl, ?_⟩
  unfold classify
  rw [backStep_front,
    frontStep_skip CameraType.front shouldersOnlyExample _ (Or.inl rfl),
    shoulderStep_some shouldersOnlyExample _
      { name := "left_shoulder", x := 0, y := 0, score := 1 }
      { name := "right_shoulder", x := 150, y := 0, score := 1 } rfl rfl]
  have hd := findDistance_eval (0 : ℝ) 0 150 0 150 (by norm_num) (by norm_num)
  dsimp only
  norm_num [hd]

/-- C4 amended: the shoulder-distance check and the camera branches write
one and the same `aligned` boolean (a shoulder-only frame can therefore
overwrite the branch verdict, as the counterexample shows), but the
shoulder-distance check never writes the color cell: the displayed color is
unaffected by the shoulder-distance result. -/
theorem shoulder_check_never_writes_color (kps : List Keypoint)
    (st : PostureState) : (shoulderStep kps st).color = st.color :=
  shoulderStep_color kps st

/-- C5: for every input with `y1 ≠ 0`, `findAngle` returns exactly the
spec's fixed formula
`floor(degrees(acos((y2−y1)·(−y1) / (sqrt((x2−x1)^2+(y2−y1)^2)·y1))))`. -/
theorem findAngle_matches_spec_formula (x1 y1 x2 y2 : ℝ)
    (_h : y1 ≠ 0) : findAngle x1 y1 x2 y2 = findAngleSpec x1 y1 x2 y2 := rfl

/-- C5 witness: the formulas agree at the concrete input `(0,1,0,2)` with
`y1 = 1 ≠ 0`. -/
theorem findAngle_matches_spec_formula_witness :
    ((1 : ℝ) ≠ 0) ∧ findAngle 0 1 0 2 = findAngleSpec 0 1 0 2 :=
  ⟨one_ne_zero, findAngle_matches_spec_formula 0 1 0 2 one_ne_zero⟩

/-- C6: for every pose in which both shoulders are present, the
shoulder-alignment boolean written by the shoulder block (which `classify`
runs for either camera facing) is set to true exactly when the floored
Euclidean distance between the two shoulders is `< 100`, and to false
otherwise. -/
theorem shoulder_distance_alignment (kps : List Keypoint)
    (st : PostureState) (ls rs : Keypoint)
    (hls : findKeypoint kps "left_shoulder" = some ls)
    (hrs : findKeypoint kps "right_shoulder" = some rs) :
    (shoulderStep kps st).aligned = true ↔
      findDistance ls.x ls.y rs.x rs.y < 100 := by
  rw [shoulderStep_some kps st ls rs hls hrs]
  by_cases h : findDistance ls.x ls.y rs.x rs.y < 100
  · simp [h]
  · simp [h]

/-- C6 witness: shoulders at `(0,0)` and `(50,0)` give true (distance 50),
shoulders at `(0,0)` and `(150,0)` give false (distance 150). -/
theorem shoulder_distance_alignment_witness :
    findKeypoint nearShouldersExample "left_shoulder" =
      some { name := "left_shoulder", x := 0, y := 0, score := 1 } ∧
    findKeypoint nearShouldersExample "right_shoulder" =
      some { name := "right_shoulder", x := 50, y := 0, score := 1 } ∧
    (shoulderStep nearShouldersExample initState).aligned = true ∧
    (shoulderStep farShouldersExample initState).aligned = false := by
  refine ⟨rfl, rfl, ?_, ?_⟩
  · apply (shoulder_distance_alignment nearShouldersExample initState
      _ _ rfl rfl).mpr
    have hd := findDistance_eval (0 : ℝ) 0 50 0 50 (by norm_num) (by norm_num)
    norm_num at hd
    dsimp only
    norm_num [hd]
  · have hiff := shoulder_distance_alignment farShouldersExample initState
      { name := "left_shoulder", x := 0, y := 0, score := 1 }
      { name := "right_shoulder", x := 150, y := 0, score := 1 } rfl rfl
    have hd := findDistance_eval (0 : ℝ) 0 150 0 150 (by norm_num)
      (by norm_num)
    norm_num at hd
    dsimp only at hiff
    rw [hd] at hiff
    norm_num at hiff
    exact hiff

/-- C7: for every prior state and every pose missing one or more of
`left_ear`, `right_ear`, `nose`, the front-camera ear/nose branch is
skipped and leaves the verdict and color unchanged from their prior
values. -/
theorem front_branch_skip_on_missing (cameraType : CameraType)
    (kps : List Keypoint) (st : PostureState)
    (h : findKeypoint kps "left_ear" = none ∨
      findKeypoint kps "right_ear" = none ∨
      findKeypoint kps "nose" = none) :
    frontStep cameraType kps st = st :=
  frontStep_skip cameraType kps st h

/-- C7 witness: on an empty keypoint list the front branch leaves the
state untouched. -/
theorem front_branch_skip_on_missing_witness :
    (findKeypoint ([] : List Keypoint) "left_ear" = none ∨
      findKeypoint ([] : List Keypoint) "right_ear" = none ∨
      findKeypoint ([] : List Keypoint) "nose" = none) ∧
    frontStep CameraType.front [] { aligned := true, color := "green" } =
      { aligned := true, color := "green" } :=
  ⟨Or.inl rfl,
    front_branch_skip_on_missing CameraType.front []
      { aligned := true, color := "green" } (Or.inl rfl)⟩

/-- C8: for every input with `y1 = 0`, the division inside `findAngle` is a
division by zero (the divisor `sqrt((x2−x1)^2+(y2−y1)^2) · y1` vanishes and
so does the numerator, giving `0/0 = NaN` in IEEE arithmetic), so in the
NaN-tracking view of the unguarded source expression the result is
undefined. -/
theorem findAngle_zero_y1_undefined (x1 x2 y2 : ℝ) :
    findAngleJS x1 0 x2 y2 = none := by
  unfold findAngleJS
  simp

/-- C9: `findAngle` is a pure deterministic function: identical inputs
yield the identical floored-degree result, with no dependence on anything
outside its four arguments. -/
theorem findAngle_deterministic (x1 y1 x2 y2 w1 z1 w2 z2 : ℝ)
    (h1 : x1 = w1) (h2 : y1 = z1) (h3 : x2 = w2) (h4 : y2 = z2) :
    findAngle x1 y1 x2 y2 = findAngle w1 z1 w2 z2 := by
  subst h1
  subst h2
  subst h3
  subst h4
  rfl

/-- C9 witness: two evaluations at the concrete input `(0,1,0,2)` (which
has `y1 = 1 ≠ 0`) agree, and the hand-computed value there is `180`
(acos argument `-1`). -/
theorem findAngle_deterministic_witness :
    ((0 : ℝ) = 0) ∧ findAngle 0 1 0 2 = findAngle 0 1 0 2 ∧
      findAngle 0 1 0 2 = 180 := by
  refine ⟨rfl, findAngle_deterministic 0 1 0 2 0 1 0 2 rfl rfl rfl rfl, ?_⟩
  have h := findAngle_vertical_down 0 1 1 one_pos one_pos
  norm_num at h
  exact h

/-- C10: the color is "green" in the initial state and every classifier
update writes either "green" or "red", so after any sequence of frames the
displayed color is one of exactly these two strings. -/
theorem color_range_invariant (frames : List (CameraType × List Pose)) :
    (runFrames frames).color = "green" ∨ (runFrames frames).color = "red" := by
  suffices h : ∀ (fs : List (CameraType × List Pose)) (st : PostureState),
      st.color = "green" ∨ st.color = "red" →
      ((fs.foldl (fun st frame => processFrame frame.1 frame.2 st) st).color =
          "green" ∨
        (fs.foldl (fun st frame => processFrame frame.1 frame.2 st) st).color =
          "red") by
    exact h frames initState (Or.inl rfl)
  intro fs
  induction fs with
  | nil => exact fun st hst => hst
  | cons frame fs ih =>
    intro st hst
    rw [List.foldl_cons]
    apply ih
    rcases processFrame_color frame.1 frame.2 st with hc | hc | hc
    · rw [hc]
      exact hst
    · exact Or.inl hc
    · exact Or.inr hc

end TechNeck
